import Mathlib

/-!
# db2struct_gorm: `utils_mysql.go`

A shallow embedding of `mysqlTypeToGoType`, `generateMysqlTypes` and
`GetColumnsFromMysqlTable`, and theorems about them.

Go strings are embedded as Lean `String`s, `fmt.Sprintf` with `%s` verbs as
concatenation, the `for _, col := range objs` loop as a left fold whose
accumulator is the local `structure`.
-/

namespace Db2Struct

/-- One row of catalog metadata: the Go struct `ColumnsInfo`. -/
structure ColumnsInfo where
  ColumnName : String
  ColumnType : String
  ColumnKey : String
  Extra : String
  DataType : String
  NullAble : String
  Default : String
  Comment : String
  deriving DecidableEq, Repr

/-- Package-level declarations that `utils_mysql.go` uses and that are declared
in other files of the package: the thirteen type-name constants and the three
string helpers. They are parameters of the embedding. -/
structure Package where
  golangByteArray : String
  gureguNullInt : String
  sqlNullInt : String
  golangInt : String
  golangInt64 : String
  gureguNullFloat : String
  sqlNullFloat : String
  golangFloat32 : String
  golangFloat64 : String
  gureguNullString : String
  sqlNullString : String
  gureguNullTime : String
  golangTime : String
  ignoreCaseEq : String → String → Bool
  fmtFieldName : String → String
  stringifyFirstChar : String → String

/-- The Go function `mysqlTypeToGoType`: a `switch` on the base type name. -/
def mysqlTypeToGoType (P : Package) (mysqlType : String) (nullable : Bool)
    (gureguTypes : Bool) : String :=
  match mysqlType with
  | "tinyint" | "int" | "smallint" | "mediumint" =>
    if nullable then
      if gureguTypes then P.gureguNullInt else P.sqlNullInt
    else P.golangInt
  | "bigint" =>
    if nullable then
      if gureguTypes then P.gureguNullInt else P.sqlNullInt
    else P.golangInt64
  | "char" | "enum" | "varchar" | "longtext" | "mediumtext" | "text" | "tinytext" =>
    if nullable then
      if gureguTypes then P.gureguNullString else P.sqlNullString
    else "string"
  | "date" | "datetime" | "time" | "timestamp" =>
    if nullable && gureguTypes then P.gureguNullTime else P.golangTime
  | "decimal" | "double" =>
    if nullable then
      if gureguTypes then P.gureguNullFloat else P.sqlNullFloat
    else P.golangFloat64
  | "float" =>
    if nullable then
      if gureguTypes then P.gureguNullFloat else P.sqlNullFloat
    else P.golangFloat32
  | "binary" | "blob" | "longblob" | "mediumblob" | "varbinary" => P.golangByteArray
  | _ => ""

/-- The persistence annotation built in the `gormAnnotation` branch of the loop
body of `generateMysqlTypes` (the local `at`). -/
def gormAnnotationText (P : Package) (col : ColumnsInfo) : String :=
  let at0 := "gorm:\"column:" ++ col.ColumnName
  let at1 := if P.ignoreCaseEq col.ColumnKey "PRI" then at0 ++ ";primary_key" else at0
  let at2 := if P.ignoreCaseEq col.Extra "auto_increment" then at1 ++ ";AUTO_INCREMENT" else at1
  let at3 := at2 ++ (";default:'" ++ col.Default ++ "'")
  at3 ++ "\""

/-- The local `annotations` of the loop body of `generateMysqlTypes` after both
`if` statements. -/
def columnAnnotations (P : Package) (col : ColumnsInfo) ( jsonAnnotation : Bool)
    ( gormAnnotation : Bool) : List String :=
  let annotations : List String := []
  let annotations :=
    if gormAnnotation = true then annotations ++ [gormAnnotationText P col] else annotations
  let annotations :=
    if jsonAnnotation = true then annotations ++ ["json:\"" ++ col.ColumnName ++ "\""]
    else annotations
  annotations

/-- One iteration of the loop of `generateMysqlTypes`: the new value of the
local `structure` after the body has run for `col`. -/
def generateMysqlTypesStep (P : Package) ( jsonAnnotation : Bool) ( gormAnnotation : Bool)
    (gureguTypes : Bool) (structure_ : String) (col : ColumnsInfo) : String :=
  let nullable := if P.ignoreCaseEq col.NullAble "YES" then true else false
  let valueType := mysqlTypeToGoType P col.DataType nullable gureguTypes
  let fieldName := P.fmtFieldName (P.stringifyFirstChar col.ColumnName)
  let annotations := columnAnnotations P col jsonAnnotation gormAnnotation
  if annotations.length > 0 then
    structure_ ++ ("\n" ++ fieldName ++ " " ++ valueType ++ " \x60"
      ++ " ".intercalate annotations ++ "\x60 // " ++ col.Comment)
  else
    structure_ ++ ("\n" ++ fieldName ++ " " ++ valueType ++ " // " ++ col.Comment)

/-- The Go function `generateMysqlTypes`. -/
def generateMysqlTypes (P : Package) (objs : List ColumnsInfo) (depth : Int)
    ( jsonAnnotation : Bool) ( gormAnnotation : Bool) (gureguTypes : Bool) : String :=
  let _ := depth
  objs.foldl (generateMysqlTypesStep P jsonAnnotation gormAnnotation gureguTypes) "struct \x7b"

/-- The text one column contributes to the output: the loop body of
`generateMysqlTypes` run from the empty accumulator. -/
def columnLine (P : Package) ( jsonAnnotation : Bool) ( gormAnnotation : Bool)
    (gureguTypes : Bool) (col : ColumnsInfo) : String :=
  generateMysqlTypesStep P jsonAnnotation gormAnnotation gureguTypes "" col

/-- Concatenation of a list of texts, in list order. -/
def concatLines : List String → String
  | [] => ""
  | l :: ls => l ++ concatLines ls

/-- What follows the type token in one emitted line: the optional
backtick-delimited annotation block, the comment marker and the comment. -/
def lineTail (P : Package) (col : ColumnsInfo) ( jsonAnnotation : Bool)
    ( gormAnnotation : Bool) : String :=
  if (columnAnnotations P col jsonAnnotation gormAnnotation).length > 0 then
    " \x60" ++ " ".intercalate (columnAnnotations P col jsonAnnotation gormAnnotation)
      ++ "\x60 // " ++ col.Comment
  else " // " ++ col.Comment

/-- The backtick character that delimits a Go struct tag. -/
def backtick : Char := '\x60'

/-- The case labels of the `switch` in `mysqlTypeToGoType`, in source order. -/
def mappedTypes : List String :=
  ["tinyint", "int", "smallint", "mediumint", "bigint",
   "char", "enum", "varchar", "longtext", "mediumtext", "text", "tinytext",
   "date", "datetime", "time", "timestamp", "decimal", "double", "float",
   "binary", "blob", "longblob", "mediumblob", "varbinary"]

/-- Modelled from the spec: the helper `ignoreCaseEq`, declared outside
`utils_mysql.go`. The spec calls it a case-insensitive comparison of two texts
(§4.2 steps 1 and 4): the texts are equal once letter case is ignored, nothing
is trimmed. -/
def ignoreCaseEq (a b : String) : Bool :=
  a.data.map Char.toLower == b.data.map Char.toLower

/-- Modelled from the spec: the helper `fmtFieldName`, declared outside
`utils_mysql.go`. The spec's `fieldNameStyle` forces the first character of the
identifier to upper case and leaves the remainder intact (§3, §4.2 step 3). -/
def fmtFieldName (s : String) : String :=
  match s.data with
  | [] => ""
  | c :: cs => ⟨c.toUpper :: cs⟩

/-- Modelled from the spec: the helper `stringifyFirstChar`, declared outside
`utils_mysql.go`. The spec describes the identifier transformation as a whole
(first character upper-cased, no further tokenization, §4.2 step 3) and gives
this helper no effect of its own, so it passes the name through. -/
def stringifyFirstChar (str : String) : String := str

/-- Modelled from the spec: the package-level type-name constants and string
helpers declared outside `utils_mysql.go`. The table of §4.2 names the type
families (plain 32-bit integer, generic nullable-int wrapper of `database/sql`,
extended nullable-int wrapper of `guregu/null`, ...) and scenario A of §8 prints
the plain 32-bit integer as `int32`; each constant is the Go name of its family. -/
def specPackage : Package where
  golangByteArray := "[]byte"
  gureguNullInt := "null.Int"
  sqlNullInt := "sql.NullInt64"
  golangInt := "int32"
  golangInt64 := "int64"
  gureguNullFloat := "null.Float"
  sqlNullFloat := "sql.NullFloat64"
  golangFloat32 := "float32"
  golangFloat64 := "float64"
  gureguNullString := "null.String"
  sqlNullString := "sql.NullString"
  gureguNullTime := "null.Time"
  golangTime := "time.Time"
  ignoreCaseEq := ignoreCaseEq
  fmtFieldName := fmtFieldName
  stringifyFirstChar := stringifyFirstChar

/-! ## The schema reader -/

/-- A Go `error`, by its message. -/
abbrev GoError := String

/-- The dynamic value `rows.Scan` stores in the `interface{}` destination `i`
for `COLUMN_DEFAULT`. -/
inductive ScannedDefault where
  /-- SQL `NULL`: `i == nil`. -/
  | null
  /-- A `[]byte`, by its text. -/
  | bytes (d : String)
  /-- A value of any other dynamic type (`int64`, `float64`, `string`, ...), by
  its string form. -/
  | other (text : String)
  deriving DecidableEq, Repr

/-- What one `rows.Next()` / `rows.Scan(...)` round leaves in the eight
destinations, and the error `Scan` returned (which the caller does not read). -/
structure ScannedRow where
  ColumnName : String
  ColumnType : String
  ColumnKey : String
  Extra : String
  DataType : String
  NullAble : String
  i : ScannedDefault
  Comment : String
  scanErr : Option GoError
  deriving DecidableEq, Repr

/-- A result cursor `*sql.Rows`: the rounds for which `Next` returns true, and
the error `rows.Err()` holds once `Next` has returned false. -/
structure Rows where
  rows : List ScannedRow
  iterErr : Option GoError
  deriving DecidableEq, Repr

/-- An open handle `*sql.DB`: what `db.Query(query, args...)` returns. -/
structure DB where
  Query : String → List String → Option Rows × Option GoError

/-- The `database/sql` package as seen by one call: what
`sql.Open(driverName, dataSourceName)` returns. -/
structure Sql where
  Open : String → String → Option DB × Option GoError

/-- How a call of `GetColumnsFromMysqlTable` ends. A nil slice is `none`. -/
inductive Outcome where
  /-- The function returns `(cols, err)`. -/
  | returned (cols : Option (List ColumnsInfo)) (err : Option GoError)
  /-- A nil-pointer dereference: a method is called on the nil `*sql.DB`. -/
  | panicked
  deriving DecidableEq, Repr

/-- The body of the `for rows.Next()` loop up to the `append`: the descriptor
built from one scanned row. -/
def scanColumn (r : ScannedRow) : ColumnsInfo :=
  let columnData : ColumnsInfo :=
    { ColumnName := r.ColumnName, ColumnType := r.ColumnType, ColumnKey := r.ColumnKey,
      Extra := r.Extra, DataType := r.DataType, NullAble := r.NullAble, Default := "",
      Comment := r.Comment }
  match r.i with
  | .null => { columnData with Default := "null" }
  | .bytes d => { columnData with Default := d }
  | .other _ => columnData

/-- The catalog query text, the local `columnDataTypeQuery`. -/
def columnDataTypeQuery : String :=
  "SELECT COLUMN_NAME, COLUMN_TYPE, COLUMN_KEY, EXTRA, DATA_TYPE, IS_NULLABLE , COLUMN_DEFAULT, COLUMN_COMMENT FROM INFORMATION_SCHEMA.COLUMNS WHERE TABLE_SCHEMA = ? AND table_name = ?"

/-- The data source name passed to `sql.Open`. -/
def dataSourceName (mariadbUser mariadbPassword mariadbHost : String) (mariadbPort : Int)
    (mariadbDatabase : String) : String :=
  if mariadbPassword != "" then
    mariadbUser ++ ":" ++ mariadbPassword ++ "@tcp(" ++ mariadbHost ++ ":"
      ++ toString mariadbPort ++ ")/" ++ mariadbDatabase ++ "?&parseTime=True"
  else
    mariadbUser ++ "@tcp(" ++ mariadbHost ++ ":"
      ++ toString mariadbPort ++ ")/" ++ mariadbDatabase ++ "?&parseTime=True"

/-- The Go function `GetColumnsFromMysqlTable`. Printing to standard output and
the `Debug` switch are left out. `defer db.Close()` is registered before the
error check, so with a nil handle every path ends in the nil-pointer
dereference of the deferred call (or of `db.Query`). -/
def GetColumnsFromMysqlTable (sql : Sql) (mariadbUser : String) (mariadbPassword : String)
    (mariadbHost : String) (mariadbPort : Int) (mariadbDatabase : String)
    (mariadbTable : String) : Outcome :=
  match sql.Open "mysql"
      (dataSourceName mariadbUser mariadbPassword mariadbHost mariadbPort mariadbDatabase) with
  | (none, _) => .panicked
  | (some db, err) =>
    if err ≠ none then .returned none err
    else
      match db.Query columnDataTypeQuery [mariadbDatabase, mariadbTable] with
      | (rows, err) =>
        if err ≠ none then .returned none err
        else
          match rows with
          | none => .returned none (some "No results returned for table")
          | some rows =>
            let columnDataTypes :=
              rows.rows.foldl (fun columnDataTypes r => columnDataTypes ++ [scanColumn r]) []
            .returned (some columnDataTypes) err

/-- A database in which the connection opens and the catalog query succeeds
with a cursor over zero rows, as for a table that does not exist. -/
def emptyCatalog : Sql where
  Open := fun _ _ => (some { Query := fun _ _ => (some { rows := [], iterErr := none }, none) }, none)

/-- A database in which the connection opens and `db.Query` returns a nil
cursor together with a nil error. -/
def nilCursor : Sql where
  Open := fun _ _ => (some { Query := fun _ _ => (none, none) }, none)

/-! ## Sample columns -/

/-- An auto-increment integer primary key named `id`, not nullable, with the
empty default and no comment. -/
def sampleId : ColumnsInfo :=
  { ColumnName := "id", ColumnType := "int(11)", ColumnKey := "PRI", Extra := "auto_increment",
    DataType := "int", NullAble := "NO", Default := "", Comment := "" }

/-- A nullable `varchar` column named `email` whose default is the null
sentinel. -/
def sampleEmail : ColumnsInfo :=
  { ColumnName := "email", ColumnType := "varchar(255)", ColumnKey := "", Extra := "",
    DataType := "varchar", NullAble := "YES", Default := "null", Comment := "" }

/-- A column of the unmapped base type `geometry`. -/
def sampleShape : ColumnsInfo :=
  { ColumnName := "shape", ColumnType := "geometry", ColumnKey := "", Extra := "",
    DataType := "geometry", NullAble := "NO", Default := "", Comment := "" }


/-! ## Sample catalogs -/

/-- A database in which the connection opens and every query succeeds with the
cursor `rows`. -/
def catalogOf (rows : Rows) : Sql where
  Open := fun _ _ => (some { Query := fun _ _ => (some rows, none) }, none)

/-- A database whose `sql.Open` fails: no handle and an error, as for a
malformed data source name or an unregistered driver. -/
def failedOpen : Sql where
  Open := fun _ _ => (none, some "invalid DSN: did you forget to escape a param value?")

/-- A handle that answers every query with one row that carries the call
itself: the query text as column name, one question mark per bound parameter as
declared type, and the first two bound parameters as key and extra. -/
def echoDB : DB where
  Query := fun query args =>
    (some { rows := [{ ColumnName := query, ColumnType := ⟨List.replicate args.length '?'⟩,
                       ColumnKey := args.getD 0 "", Extra := args.getD 1 "",
                       DataType := "", NullAble := "", i := .null, Comment := "",
                       scanErr := none }],
            iterErr := none }, none)

/-- A database in which the connection opens to `echoDB`. -/
def echoCatalog : Sql where
  Open := fun _ _ => (some echoDB, none)

/-- A handle that answers the catalog query with zero rows and any other query
text as `echoDB` does. -/
def strictDB : DB where
  Query := fun query args =>
    if query = columnDataTypeQuery then (some { rows := [], iterErr := none }, none)
    else echoDB.Query query args

/-- A database in which the connection opens to `strictDB`. -/
def strictCatalog : Sql where
  Open := fun _ _ => (some strictDB, none)

/-- The scanned catalog row of the column `id`: its default arrives as the
empty byte sequence. -/
def rowId : ScannedRow :=
  { ColumnName := "id", ColumnType := "int(11)", ColumnKey := "PRI", Extra := "auto_increment",
    DataType := "int", NullAble := "NO", i := .bytes "", Comment := "", scanErr := none }

/-- The scanned catalog row of the column `email`: its default is SQL `NULL`. -/
def rowEmail : ScannedRow :=
  { ColumnName := "email", ColumnType := "varchar(255)", ColumnKey := "", Extra := "",
    DataType := "varchar", NullAble := "YES", i := .null, Comment := "", scanErr := none }

/-- The scanned catalog row of a column `visits` whose default `0` arrives as a
byte sequence. -/
def rowVisitsBytes : ScannedRow :=
  { ColumnName := "visits", ColumnType := "int(11)", ColumnKey := "", Extra := "",
    DataType := "int", NullAble := "NO", i := .bytes "0", Comment := "", scanErr := none }

/-- The same row with the default `0` arriving as an `int64`. -/
def rowVisitsInt : ScannedRow :=
  { rowVisitsBytes with i := .other "0" }

/-- A round whose `Scan` fails at the third column: the first two destinations
are set, the others keep their zero values, and `Scan` returns an error. -/
def rowScanFailed : ScannedRow :=
  { ColumnName := "email", ColumnType := "varchar(255)", ColumnKey := "", Extra := "",
    DataType := "", NullAble := "", i := .null, Comment := "",
    scanErr := some "sql: Scan error on column index 2" }


/-- The number of newline characters of a text. -/
def countNewlines (s : String) : Nat := s.data.count '\n'

/-- A column whose comment runs over two lines. -/
def sampleNote : ColumnsInfo :=
  { ColumnName := "note", ColumnType := "text", ColumnKey := "", Extra := "",
    DataType := "text", NullAble := "NO", Default := "", Comment := "first line\nsecond line" }


/-! ## Shared lemmas -/

/-- One iteration appends the line of its column to the accumulator. -/
theorem step_eq_append (P : Package) (j g gu : Bool) (s : String) (col : ColumnsInfo) :
    generateMysqlTypesStep P j g gu s col = s ++ columnLine P j g gu col := by
  unfold columnLine generateMysqlTypesStep
  simp only []
  split <;> simp

/-- The loop appends the lines of the columns, in order, to its start value. -/
theorem foldl_step_eq (P : Package) (j g gu : Bool) (objs : List ColumnsInfo) (s : String) :
    objs.foldl (generateMysqlTypesStep P j g gu) s
      = s ++ concatLines (objs.map (columnLine P j g gu)) := by
  induction objs generalizing s with
  | nil => simp [concatLines]
  | cons x xs ih =>
    simp only [List.foldl_cons, List.map_cons, concatLines]
    rw [ih, step_eq_append, String.append_assoc]

/-- Concatenation of texts distributes over list append. -/
theorem concatLines_append (xs ys : List String) :
    concatLines (xs ++ ys) = concatLines xs ++ concatLines ys := by
  induction xs with
  | nil => simp [concatLines]
  | cons x xs ih => simp [concatLines, ih, String.append_assoc]

/-- The output is the opening token followed by the lines of the columns. -/
theorem generateMysqlTypes_eq (P : Package) (objs : List ColumnsInfo) (d : Int)
    (j g gu : Bool) :
    generateMysqlTypes P objs d j g gu
      = "struct \x7b" ++ concatLines (objs.map (columnLine P j g gu)) := by
  unfold generateMysqlTypes
  exact foldl_step_eq P j g gu objs _

/-- The line of a column: newline, field identifier, space, type token, tail. -/
theorem columnLine_eq (P : Package) (j g gu : Bool) (col : ColumnsInfo) :
    columnLine P j g gu col
      = "\n" ++ P.fmtFieldName (P.stringifyFirstChar col.ColumnName) ++ " "
        ++ mysqlTypeToGoType P col.DataType (P.ignoreCaseEq col.NullAble "YES") gu
        ++ lineTail P col j g := by
  unfold columnLine generateMysqlTypesStep lineTail
  simp only [String.empty_append]
  split <;> simp [String.append_assoc]

/-- A character of a concatenation is a character of one of the texts. -/
theorem mem_concatLines (c : Char) (ls : List String) :
    c ∈ (concatLines ls).data ↔ ∃ l ∈ ls, c ∈ l.data := by
  induction ls with
  | nil => simp [concatLines]
  | cons l ls ih => simp [concatLines, String.data_append, ih]

/-- With both annotation flags off the tail is the comment marker and the comment. -/
theorem lineTail_plain (P : Package) (col : ColumnsInfo) :
    lineTail P col false false = " // " ++ col.Comment := by
  simp [lineTail, columnAnnotations]

/-- Every tail ends with the comment marker and the comment. -/
theorem lineTail_suffix (P : Package) (col : ColumnsInfo) (j g : Bool) :
    (" // " ++ col.Comment).data <:+ (lineTail P col j g).data := by
  unfold lineTail
  split
  · refine ⟨(" \x60" ++ " ".intercalate (columnAnnotations P col j g) ++ "\x60").data, ?_⟩
    simp [String.data_append]
  · exact List.suffix_refl _

/-- A base type that is no case label of the `switch` falls through to `return ""`. -/
theorem mysqlTypeToGoType_of_not_mem (P : Package) (t : String) (h : t ∉ mappedTypes)
    (nullable gureguTypes : Bool) : mysqlTypeToGoType P t nullable gureguTypes = "" := by
  unfold mysqlTypeToGoType
  split <;> simp_all [mappedTypes]

/-- Characters with the same code point are equal. -/
theorem char_eq_of_toNat_eq (a b : Char) (h : a.toNat = b.toNat) : a = b := by
  apply Char.ext
  apply UInt32.ext
  exact h

/-- Below the surrogate range `Char.ofNat` keeps the code point. -/
theorem toNat_ofNat_small (n : Nat) (h : n < 55296) : (Char.ofNat n).toNat = n := by
  have hv : n.isValidChar := Or.inl h
  unfold Char.ofNat
  rw [dif_pos hv]
  rfl

/-- The characters that `Char.toLower` sends to a lower-case letter are that letter
and its upper-case form. -/
theorem toLower_eq_iff (c l u : Char) (hl : l.toNat = u.toNat + 32)
    (hu : 65 ≤ u.toNat ∧ u.toNat ≤ 90) :
    c.toLower = l ↔ c = l ∨ c = u := by
  unfold Char.toLower
  simp only []
  constructor
  · intro h
    split at h
    · refine Or.inr (char_eq_of_toNat_eq _ _ ?_)
      have h1 := congrArg Char.toNat h
      rw [toNat_ofNat_small _ (by omega)] at h1
      omega
    · exact Or.inl h
  · rintro (rfl | rfl)
    · rw [if_neg (by omega)]
    · rw [if_pos (by omega)]
      apply char_eq_of_toNat_eq
      rw [toNat_ofNat_small _ (by omega)]
      omega

/-- The texts equal to `YES` ignoring letter case are its eight spellings. -/
theorem ignoreCaseEq_yes_iff (s : String) :
    ignoreCaseEq s "YES" = true
      ↔ s ∈ ["YES", "YEs", "YeS", "Yes", "yES", "yEs", "yeS", "yes"] := by
  have hy := fun c => toLower_eq_iff c 'y' 'Y' (by decide) (by decide)
  have he := fun c => toLower_eq_iff c 'e' 'E' (by decide) (by decide)
  have hs := fun c => toLower_eq_iff c 's' 'S' (by decide) (by decide)
  have hconst : "YES".data.map Char.toLower = ['y', 'e', 's'] := by decide
  unfold ignoreCaseEq
  rw [beq_iff_eq, hconst]
  constructor
  · intro h
    obtain ⟨l⟩ := s
    rcases l with _ | ⟨a, _ | ⟨b, _ | ⟨c, _ | ⟨d, r⟩⟩⟩⟩ <;>
      simp only [List.map_cons, List.map_nil, List.cons.injEq, and_true, reduceCtorEq,
        and_false] at h
    obtain ⟨h1, h2, h3⟩ := h
    rcases (hy a).1 h1 with rfl | rfl <;> rcases (he b).1 h2 with rfl | rfl <;>
      rcases (hs c).1 h3 with rfl | rfl <;> decide
  · intro h
    simp only [List.mem_cons, List.mem_singleton, List.not_mem_nil, or_false] at h
    rcases h with rfl | rfl | rfl | rfl | rfl | rfl | rfl | rfl <;> decide

/-- A last column adds its line at the end of the output. -/
theorem generateMysqlTypes_snoc (P : Package) (xs : List ColumnsInfo) (col : ColumnsInfo)
    (depth : Int) (j g gu : Bool) :
    generateMysqlTypes P (xs ++ [col]) depth j g gu
      = generateMysqlTypes P xs depth j g gu ++ columnLine P j g gu col := by
  rw [generateMysqlTypes_eq, generateMysqlTypes_eq, List.map_append, concatLines_append,
    String.append_assoc]
  simp only [List.map_cons, List.map_nil, concatLines, String.append_empty]

/-- The tail with only the persistence annotation on. -/
theorem lineTail_gorm (P : Package) (col : ColumnsInfo) :
    lineTail P col false true = " \x60" ++ gormAnnotationText P col ++ "\x60 // " ++ col.Comment := by
  rfl

/-- The tail with both annotations on: persistence fragment, one space, serialization
fragment. -/
theorem lineTail_gorm_json (P : Package) (col : ColumnsInfo) :
    lineTail P col true true
      = " \x60" ++ (gormAnnotationText P col ++ " " ++ ("json:\"" ++ col.ColumnName ++ "\""))
        ++ "\x60 // " ++ col.Comment := by
  rfl

/-- The persistence fragment in closed form. -/
theorem gormAnnotationText_eq (P : Package) (col : ColumnsInfo) :
    gormAnnotationText P col
      = "gorm:\"column:" ++ col.ColumnName
        ++ (if P.ignoreCaseEq col.ColumnKey "PRI" then ";primary_key" else "")
        ++ (if P.ignoreCaseEq col.Extra "auto_increment" then ";AUTO_INCREMENT" else "")
        ++ ";default:'" ++ col.Default ++ "'" ++ "\"" := by
  unfold gormAnnotationText
  cases P.ignoreCaseEq col.ColumnKey "PRI" <;> cases P.ignoreCaseEq col.Extra "auto_increment" <;>
    simp only [Bool.false_eq_true, if_false, if_true, String.append_assoc, String.append_empty,
      String.empty_append]

/-- The row loop appends one descriptor per round, in order. -/
theorem foldl_scanColumn (rs : List ScannedRow) (acc : List ColumnsInfo) :
    rs.foldl (fun columnDataTypes r => columnDataTypes ++ [scanColumn r]) acc
      = acc ++ rs.map scanColumn := by
  induction rs generalizing acc with
  | nil => simp
  | cons r rs ih => simp [ih]

/-- With an open handle and a successful query the function returns the
descriptors of the rounds of the cursor and the nil error of the query. -/
theorem GetColumnsFromMysqlTable_of_rows (sql : Sql) (user password host : String) (port : Int)
    (database table : String) (db : DB) (rows : Rows)
    (hopen : sql.Open "mysql" (dataSourceName user password host port database)
      = (some db, none))
    (hquery : db.Query columnDataTypeQuery [database, table] = (some rows, none)) :
    GetColumnsFromMysqlTable sql user password host port database table
      = .returned (some (rows.rows.map scanColumn)) none := by
  obtain ⟨Q⟩ := db
  have hq : Q columnDataTypeQuery [database, table] = (some rows, none) := hquery
  unfold GetColumnsFromMysqlTable
  rw [hopen]
  simp only [ne_eq, not_true_eq_false, if_false, hq, foldl_scanColumn, List.nil_append]

/-- The tail with only the serialization annotation on. -/
theorem lineTail_json (P : Package) (col : ColumnsInfo) :
    lineTail P col true false
      = " \x60" ++ ("json:\"" ++ col.ColumnName ++ "\"") ++ "\x60 // " ++ col.Comment := by
  rfl

/-- The line of a column does not read its declared type. -/
theorem columnLine_ColumnType (P : Package) (j g gu : Bool) (col : ColumnsInfo) (t : String) :
    columnLine P j g gu { col with ColumnType := t } = columnLine P j g gu col := by
  rfl

/-- Newlines of a concatenation are those of its parts. -/
theorem countNewlines_append (a b : String) :
    countNewlines (a ++ b) = countNewlines a + countNewlines b := by
  simp [countNewlines, String.data_append, List.count_append]

/-- Newlines of the output: one sum over the lines. -/
theorem countNewlines_concatLines (ls : List String) :
    countNewlines (concatLines ls) = (ls.map countNewlines).sum := by
  induction ls with
  | nil => rfl
  | cons l ls ih => simp [concatLines, countNewlines_append, ih]

/-- The persistence fragment has the newlines of the column name and of the
default. -/
theorem countNewlines_gormAnnotationText (P : Package) (col : ColumnsInfo) :
    countNewlines (gormAnnotationText P col)
      = countNewlines col.ColumnName + countNewlines col.Default := by
  have h1 : countNewlines "gorm:\"column:" = 0 := by decide
  have h2 : countNewlines ";primary_key" = 0 := by decide
  have h3 : countNewlines ";AUTO_INCREMENT" = 0 := by decide
  have h4 : countNewlines ";default:'" = 0 := by decide
  have h5 : countNewlines "'" = 0 := by decide
  have h6 : countNewlines "\"" = 0 := by decide
  have h7 : countNewlines "" = 0 := by decide
  rw [gormAnnotationText_eq]
  cases P.ignoreCaseEq col.ColumnKey "PRI" <;> cases P.ignoreCaseEq col.Extra "auto_increment" <;>
    simp only [Bool.false_eq_true, if_false, if_true, countNewlines_append, h1, h2, h3, h4, h5,
      h6, h7] <;> omega

/-- The tail of a line has the newlines of the comment and, with annotations,
of the column name and the default. -/
theorem countNewlines_lineTail (P : Package) (col : ColumnsInfo) (j g : Bool) :
    countNewlines (lineTail P col j g)
      = (if g = true then countNewlines col.ColumnName + countNewlines col.Default else 0)
        + (if j = true then countNewlines col.ColumnName else 0)
        + countNewlines col.Comment := by
  have h1 : countNewlines " \x60" = 0 := by decide
  have h2 : countNewlines "\x60 // " = 0 := by decide
  have h3 : countNewlines " // " = 0 := by decide
  have h4 : countNewlines "json:\"" = 0 := by decide
  have h5 : countNewlines "\"" = 0 := by decide
  have h6 : countNewlines " " = 0 := by decide
  cases j <;> cases g
  · rw [lineTail_plain]
    simp only [countNewlines_append, h3, Bool.false_eq_true, if_false]
  · rw [lineTail_gorm]
    simp only [countNewlines_append, countNewlines_gormAnnotationText, h1, h2,
      Bool.false_eq_true, if_false, if_true]
    omega
  · rw [lineTail_json]
    simp only [countNewlines_append, h1, h2, h4, h5, Bool.false_eq_true, if_false, if_true]
    omega
  · rw [lineTail_gorm_json]
    simp only [countNewlines_append, countNewlines_gormAnnotationText, h1, h2, h4, h5, h6,
      if_true]
    omega

/-- The newlines of one line: its leading newline and those of the copied
texts. -/
theorem countNewlines_columnLine (P : Package) (j g gu : Bool) (col : ColumnsInfo) :
    countNewlines (columnLine P j g gu col)
      = 1 + countNewlines (P.fmtFieldName (P.stringifyFirstChar col.ColumnName))
        + countNewlines
            (mysqlTypeToGoType P col.DataType (P.ignoreCaseEq col.NullAble "YES") gu)
        + countNewlines (lineTail P col j g) := by
  have h1 : countNewlines "\n" = 1 := by decide
  have h2 : countNewlines " " = 0 := by decide
  rw [columnLine_eq]
  simp only [countNewlines_append, h1, h2]
  omega

/-- The type tokens of the package of the spec hold no newline. -/
theorem countNewlines_specPackage (t : String) (nullable gureguTypes : Bool) :
    countNewlines (mysqlTypeToGoType specPackage t nullable gureguTypes) = 0 := by
  by_cases h : t ∈ mappedTypes
  · simp only [mappedTypes, List.mem_cons, List.mem_singleton, List.not_mem_nil, or_false] at h
    rcases h with rfl | rfl | rfl | rfl | rfl | rfl | rfl | rfl | rfl | rfl | rfl | rfl | rfl
      | rfl | rfl | rfl | rfl | rfl | rfl | rfl | rfl | rfl | rfl | rfl <;>
      cases nullable <;> cases gureguTypes <;> decide
  · rw [mysqlTypeToGoType_of_not_mem specPackage t h]
    decide

/-- Every line holds at least its leading newline and the newlines of its
comment. -/
theorem countNewlines_columnLine_ge (P : Package) (j g gu : Bool) (col : ColumnsInfo) :
    1 + countNewlines col.Comment ≤ countNewlines (columnLine P j g gu col) := by
  rw [countNewlines_columnLine, countNewlines_lineTail]
  omega

/-- The lines of a sequence hold at least one newline each. -/
theorem length_le_sum_countNewlines (P : Package) (j g gu : Bool) (objs : List ColumnsInfo) :
    objs.length ≤ ((objs.map (columnLine P j g gu)).map countNewlines).sum := by
  induction objs with
  | nil => simp
  | cons x xs ih =>
    have hx := countNewlines_columnLine_ge P j g gu x
    simp only [List.map_cons, List.sum_cons, List.length_cons]
    omega

/-! ## The mapping table -/

/-- C1: for every base type named in the mapping table and every combination of
`nullable` and `gureguTypes`, `mysqlTypeToGoType` returns the table's cell. -/
theorem mysqlTypeToGoType_table (P : Package) :
    (∀ t ∈ ["tinyint", "int", "smallint", "mediumint"],
        mysqlTypeToGoType P t false false = P.golangInt
        ∧ mysqlTypeToGoType P t false true = P.golangInt
        ∧ mysqlTypeToGoType P t true false = P.sqlNullInt
        ∧ mysqlTypeToGoType P t true true = P.gureguNullInt)
    ∧ (mysqlTypeToGoType P "bigint" false false = P.golangInt64
        ∧ mysqlTypeToGoType P "bigint" false true = P.golangInt64
        ∧ mysqlTypeToGoType P "bigint" true false = P.sqlNullInt
        ∧ mysqlTypeToGoType P "bigint" true true = P.gureguNullInt)
    ∧ (∀ t ∈ ["char", "enum", "varchar", "longtext", "mediumtext", "text", "tinytext"],
        mysqlTypeToGoType P t false false = "string"
        ∧ mysqlTypeToGoType P t false true = "string"
        ∧ mysqlTypeToGoType P t true false = P.sqlNullString
        ∧ mysqlTypeToGoType P t true true = P.gureguNullString)
    ∧ (∀ t ∈ ["date", "datetime", "time", "timestamp"],
        mysqlTypeToGoType P t false false = P.golangTime
        ∧ mysqlTypeToGoType P t false true = P.golangTime
        ∧ mysqlTypeToGoType P t true false = P.golangTime
        ∧ mysqlTypeToGoType P t true true = P.gureguNullTime)
    ∧ (∀ t ∈ ["decimal", "double"],
        mysqlTypeToGoType P t false false = P.golangFloat64
        ∧ mysqlTypeToGoType P t false true = P.golangFloat64
        ∧ mysqlTypeToGoType P t true false = P.sqlNullFloat
        ∧ mysqlTypeToGoType P t true true = P.gureguNullFloat)
    ∧ (mysqlTypeToGoType P "float" false false = P.golangFloat32
        ∧ mysqlTypeToGoType P "float" false true = P.golangFloat32
        ∧ mysqlTypeToGoType P "float" true false = P.sqlNullFloat
        ∧ mysqlTypeToGoType P "float" true true = P.gureguNullFloat)
    ∧ (∀ t ∈ ["binary", "blob", "longblob", "mediumblob", "varbinary"],
        ∀ nullable gureguTypes : Bool,
          mysqlTypeToGoType P t nullable gureguTypes = P.golangByteArray) := by
  refine ⟨?_, ?_, ?_, ?_, ?_, ?_, ?_⟩
  · intro t ht
    simp only [List.mem_cons, List.mem_singleton, List.not_mem_nil, or_false] at ht
    rcases ht with rfl | rfl | rfl | rfl <;> exact ⟨rfl, rfl, rfl, rfl⟩
  · exact ⟨rfl, rfl, rfl, rfl⟩
  · intro t ht
    simp only [List.mem_cons, List.mem_singleton, List.not_mem_nil, or_false] at ht
    rcases ht with rfl | rfl | rfl | rfl | rfl | rfl | rfl <;> exact ⟨rfl, rfl, rfl, rfl⟩
  · intro t ht
    simp only [List.mem_cons, List.mem_singleton, List.not_mem_nil, or_false] at ht
    rcases ht with rfl | rfl | rfl | rfl <;> exact ⟨rfl, rfl, rfl, rfl⟩
  · intro t ht
    simp only [List.mem_cons, List.mem_singleton, List.not_mem_nil, or_false] at ht
    rcases ht with rfl | rfl <;> exact ⟨rfl, rfl, rfl, rfl⟩
  · exact ⟨rfl, rfl, rfl, rfl⟩
  · intro t ht nullable gureguTypes
    simp only [List.mem_cons, List.mem_singleton, List.not_mem_nil, or_false] at ht
    rcases ht with rfl | rfl | rfl | rfl | rfl <;> rfl

/-- The table of C1 read at one name of each family, on the package of the spec:
`int`, `varchar`, `timestamp`, `double` and `blob`. -/
theorem mysqlTypeToGoType_table_witness :
    (mysqlTypeToGoType specPackage "int" false false = "int32"
      ∧ mysqlTypeToGoType specPackage "int" false true = "int32"
      ∧ mysqlTypeToGoType specPackage "int" true false = "sql.NullInt64"
      ∧ mysqlTypeToGoType specPackage "int" true true = "null.Int")
    ∧ (mysqlTypeToGoType specPackage "varchar" false false = "string"
      ∧ mysqlTypeToGoType specPackage "varchar" false true = "string"
      ∧ mysqlTypeToGoType specPackage "varchar" true false = "sql.NullString"
      ∧ mysqlTypeToGoType specPackage "varchar" true true = "null.String")
    ∧ (mysqlTypeToGoType specPackage "timestamp" false false = "time.Time"
      ∧ mysqlTypeToGoType specPackage "timestamp" false true = "time.Time"
      ∧ mysqlTypeToGoType specPackage "timestamp" true false = "time.Time"
      ∧ mysqlTypeToGoType specPackage "timestamp" true true = "null.Time")
    ∧ (mysqlTypeToGoType specPackage "double" false false = "float64"
      ∧ mysqlTypeToGoType specPackage "double" false true = "float64"
      ∧ mysqlTypeToGoType specPackage "double" true false = "sql.NullFloat64"
      ∧ mysqlTypeToGoType specPackage "double" true true = "null.Float")
    ∧ mysqlTypeToGoType specPackage "blob" true false = "[]byte" :=
  ⟨(mysqlTypeToGoType_table specPackage).1 "int" (by decide),
   (mysqlTypeToGoType_table specPackage).2.2.1 "varchar" (by decide),
   (mysqlTypeToGoType_table specPackage).2.2.2.1 "timestamp" (by decide),
   (mysqlTypeToGoType_table specPackage).2.2.2.2.1 "double" (by decide),
   (mysqlTypeToGoType_table specPackage).2.2.2.2.2.2 "blob" (by decide) true false⟩

/-! ## Lines and their order -/

/-- C2: the output is the opening token followed by one line per descriptor, in
input order. The line of a descriptor is the text the loop body emits for it: a
newline, its field identifier, a space, its type and its tail (the annotation
block, if any, the comment marker and its comment); line `i` is the line of
descriptor `i`, it is the line generated from that descriptor alone, it stands
right after the output for the descriptors before it, and the output for
`xs ++ ys` is the output for `xs` followed by the lines of `ys`. -/
theorem generateMysqlTypes_preserves_order (P : Package) (xs ys : List ColumnsInfo)
    (depth : Int) (j g gu : Bool) :
    generateMysqlTypes P xs depth j g gu
        = "struct \x7b" ++ concatLines (xs.map (columnLine P j g gu))
    ∧ (xs.map (columnLine P j g gu)).length = xs.length
    ∧ (∀ i : Nat, (xs.map (columnLine P j g gu))[i]? = (xs[i]?).map (columnLine P j g gu))
    ∧ (∀ x : ColumnsInfo,
        generateMysqlTypes P [x] depth j g gu = "struct \x7b" ++ columnLine P j g gu x)
    ∧ generateMysqlTypes P (xs ++ ys) depth j g gu
        = generateMysqlTypes P xs depth j g gu ++ concatLines (ys.map (columnLine P j g gu))
    ∧ (∀ x : ColumnsInfo,
        columnLine P j g gu x
          = "\n" ++ P.fmtFieldName (P.stringifyFirstChar x.ColumnName) ++ " "
            ++ mysqlTypeToGoType P x.DataType (P.ignoreCaseEq x.NullAble "YES") gu
            ++ (if (columnAnnotations P x j g).length > 0 then
                  " \x60" ++ " ".intercalate (columnAnnotations P x j g) ++ "\x60 // "
                    ++ x.Comment
                else " // " ++ x.Comment))
    ∧ (∀ (x : ColumnsInfo) (zs : List ColumnsInfo),
        generateMysqlTypes P (xs ++ x :: zs) depth j g gu
          = generateMysqlTypes P xs depth j g gu
            ++ ("\n" ++ P.fmtFieldName (P.stringifyFirstChar x.ColumnName) ++ " "
              ++ mysqlTypeToGoType P x.DataType (P.ignoreCaseEq x.NullAble "YES") gu
              ++ (if (columnAnnotations P x j g).length > 0 then
                    " \x60" ++ " ".intercalate (columnAnnotations P x j g) ++ "\x60 // "
                      ++ x.Comment
                  else " // " ++ x.Comment))
            ++ concatLines (zs.map (columnLine P j g gu)))
    ∧ xs.length ≤ countNewlines (generateMysqlTypes P xs depth j g gu) := by
  have hline : ∀ x : ColumnsInfo,
      columnLine P j g gu x
        = "\n" ++ P.fmtFieldName (P.stringifyFirstChar x.ColumnName) ++ " "
          ++ mysqlTypeToGoType P x.DataType (P.ignoreCaseEq x.NullAble "YES") gu
          ++ (if (columnAnnotations P x j g).length > 0 then
                " \x60" ++ " ".intercalate (columnAnnotations P x j g) ++ "\x60 // "
                  ++ x.Comment
              else " // " ++ x.Comment) := fun x => columnLine_eq P j g gu x
  refine ⟨generateMysqlTypes_eq P xs depth j g gu, by simp, fun i => by simp, ?_, ?_, hline,
    ?_, ?_⟩
  · intro x
    rw [generateMysqlTypes_eq]
    simp only [List.map_cons, List.map_nil, concatLines, String.append_empty]
  · rw [generateMysqlTypes_eq, generateMysqlTypes_eq, List.map_append, concatLines_append,
      String.append_assoc]
  · intro x zs
    rw [← hline x, generateMysqlTypes_eq, generateMysqlTypes_eq, List.map_append,
      concatLines_append]
    simp only [List.map_cons, concatLines, String.append_assoc]
  · have h0 : countNewlines "struct \x7b" = 0 := by decide
    rw [generateMysqlTypes_eq, countNewlines_append, countNewlines_concatLines, h0,
      Nat.zero_add]
    exact length_le_sum_countNewlines P j g gu xs

/-! ## The envelope -/

/-- C3, as the claim states it, fails: for the empty descriptor sequence the
returned text is the opening token alone and does not end with the closing
token. -/
theorem generateMysqlTypes_empty_not_closed :
    generateMysqlTypes specPackage [] 0 false false false = "struct \x7b"
    ∧ ¬ ("\x7d".data <:+ (generateMysqlTypes specPackage [] 0 false false false).data) := by
  decide

/-- C3, amended: the returned text begins with the opening token `struct {`
and no closing token is added: for the empty sequence it is the opening token
alone, and for a sequence ending in `col` it ends with the comment marker and
the comment of `col`. -/
theorem generateMysqlTypes_envelope (P : Package) (objs : List ColumnsInfo) (depth : Int)
    (j g gu : Bool) :
    "struct \x7b".data <+: (generateMysqlTypes P objs depth j g gu).data
    ∧ generateMysqlTypes P [] depth j g gu = "struct \x7b"
    ∧ ∀ (xs : List ColumnsInfo) (col : ColumnsInfo),
        (" // " ++ col.Comment).data
          <:+ (generateMysqlTypes P (xs ++ [col]) depth j g gu).data := by
  refine ⟨?_, rfl, ?_⟩
  · rw [generateMysqlTypes_eq, String.data_append]
    exact List.prefix_append _ _
  · intro xs col
    rw [generateMysqlTypes_eq, List.map_append, concatLines_append]
    simp only [List.map_cons, List.map_nil, concatLines, String.append_empty]
    rw [columnLine_eq]
    obtain ⟨t, ht⟩ := lineTail_suffix P col j g
    refine ⟨("struct \x7b" ++ concatLines (xs.map (columnLine P j g gu)) ++ "\n"
      ++ P.fmtFieldName (P.stringifyFirstChar col.ColumnName) ++ " "
      ++ mysqlTypeToGoType P col.DataType (P.ignoreCaseEq col.NullAble "YES") gu).data ++ t, ?_⟩
    simp only [String.data_append, ← ht, List.append_assoc]

/-! ## Lines without annotations -/

/-- C4, as the claim states it, fails: with both annotation flags off, a column
whose comment holds backticks puts them in the output. -/
theorem generateMysqlTypes_backtick_from_comment :
    backtick ∈ (generateMysqlTypes specPackage
      [{ ColumnName := "id", ColumnType := "int(11)", ColumnKey := "", Extra := "",
         DataType := "int", NullAble := "NO", Default := "", Comment := "see \x60users\x60" }]
      0 false false false).data := by
  decide

/-- C4, amended: with both annotation flags off the generator adds no backtick
of its own: a backtick occurs in the output exactly when it occurs in the field
identifier, the type token or the comment of some column; key, extra, default
and declared type never reach the output. -/
theorem generateMysqlTypes_no_annotation_backtick (P : Package) (objs : List ColumnsInfo)
    (depth : Int) (gu : Bool) :
    backtick ∈ (generateMysqlTypes P objs depth false false gu).data
      ↔ ∃ col ∈ objs,
          backtick ∈ (P.fmtFieldName (P.stringifyFirstChar col.ColumnName)).data
          ∨ backtick ∈
              (mysqlTypeToGoType P col.DataType (P.ignoreCaseEq col.NullAble "YES") gu).data
          ∨ backtick ∈ col.Comment.data := by
  rw [generateMysqlTypes_eq, String.data_append, List.mem_append, mem_concatLines]
  have h0 : backtick ∉ "struct \x7b".data := by decide
  constructor
  · rintro (h | ⟨l, hl, hc⟩)
    · exact absurd h h0
    · obtain ⟨col, hcol, rfl⟩ := List.mem_map.1 hl
      refine ⟨col, hcol, ?_⟩
      rw [columnLine_eq, lineTail_plain] at hc
      simp only [String.data_append, List.mem_append] at hc
      have h1 : backtick ∉ "\n".data := by decide
      have h2 : backtick ∉ " ".data := by decide
      have h3 : backtick ∉ " // ".data := by decide
      tauto
  · rintro ⟨col, hcol, h⟩
    refine Or.inr ⟨_, List.mem_map.2 ⟨col, hcol, rfl⟩, ?_⟩
    rw [columnLine_eq, lineTail_plain]
    simp only [String.data_append, List.mem_append]
    tauto

/-! ## Unmapped base types -/

/-- C5: for every base type that is not exactly one of the names of the mapping
table (the 24 case labels of the `switch`), `mysqlTypeToGoType` returns the empty
string for every `nullable` and `gureguTypes`; in `generateMysqlTypes` a column
of that type yields a line with an empty type token, and the other columns of
the sequence get the lines they get when that column is absent. -/
theorem unmapped_type_degrades (P : Package) (t : String) (h : t ∉ mappedTypes)
    (col : ColumnsInfo) (hcol : col.DataType = t) (xs ys : List ColumnsInfo) (depth : Int)
    (j g gu : Bool) :
    mappedTypes.length = 24
    ∧ (∀ nullable gureguTypes : Bool, mysqlTypeToGoType P t nullable gureguTypes = "")
    ∧ columnLine P j g gu col
        = "\n" ++ P.fmtFieldName (P.stringifyFirstChar col.ColumnName) ++ " " ++ ""
          ++ lineTail P col j g
    ∧ generateMysqlTypes P (xs ++ col :: ys) depth j g gu
        = "struct \x7b" ++ concatLines (xs.map (columnLine P j g gu))
          ++ columnLine P j g gu col ++ concatLines (ys.map (columnLine P j g gu))
    ∧ generateMysqlTypes P (xs ++ ys) depth j g gu
        = "struct \x7b" ++ concatLines (xs.map (columnLine P j g gu))
          ++ concatLines (ys.map (columnLine P j g gu)) := by
  refine ⟨rfl, mysqlTypeToGoType_of_not_mem P t h, ?_, ?_, ?_⟩
  · rw [columnLine_eq, hcol, mysqlTypeToGoType_of_not_mem P t h]
  · rw [generateMysqlTypes_eq, List.map_append, concatLines_append]
    simp only [List.map_cons, concatLines, String.append_assoc]
  · rw [generateMysqlTypes_eq, List.map_append, concatLines_append, String.append_assoc]

/-- C5 at the base type `geometry`, between the columns `id` and `email`, on the
package of the spec and with all flags off. -/
theorem unmapped_type_degrades_witness :
    "geometry" ∉ mappedTypes
    ∧ (∀ nullable gureguTypes : Bool,
        mysqlTypeToGoType specPackage "geometry" nullable gureguTypes = "")
    ∧ columnLine specPackage false false false sampleShape = "\nShape  // "
    ∧ generateMysqlTypes specPackage [sampleId, sampleShape, sampleEmail] 0 false false false
        = "struct \x7b\nId int32 // \nShape  // \nEmail sql.NullString // "
    ∧ generateMysqlTypes specPackage [sampleId, sampleEmail] 0 false false false
        = "struct \x7b\nId int32 // \nEmail sql.NullString // " :=
  ⟨by decide,
   (unmapped_type_degrades specPackage "geometry" (by decide) sampleShape rfl
      [sampleId] [sampleEmail] 0 false false false).2⟩

/-! ## Nullability -/

/-- C6: the type emitted for a column is
`mysqlTypeToGoType(DataType, ignoreCaseEq(NullAble, "YES"), gureguTypes)`; under
the spec's reading of `ignoreCaseEq` the column is nullable exactly for the
eight spellings of `YES` in upper and lower case, and not for the empty text,
`NO`, or `YES` with a space before or after it. -/
theorem nullable_iff_yes (P : Package) (xs : List ColumnsInfo) (col : ColumnsInfo)
    (depth : Int) (j g gu : Bool) :
    generateMysqlTypes P (xs ++ [col]) depth j g gu
        = generateMysqlTypes P xs depth j g gu
          ++ ("\n" ++ P.fmtFieldName (P.stringifyFirstChar col.ColumnName) ++ " "
            ++ mysqlTypeToGoType P col.DataType (P.ignoreCaseEq col.NullAble "YES") gu
            ++ lineTail P col j g)
    ∧ (specPackage.ignoreCaseEq col.NullAble "YES" = true
        ↔ col.NullAble ∈ ["YES", "YEs", "YeS", "Yes", "yES", "yEs", "yeS", "yes"])
    ∧ specPackage.ignoreCaseEq "" "YES" = false
    ∧ specPackage.ignoreCaseEq "NO" "YES" = false
    ∧ specPackage.ignoreCaseEq "YES " "YES" = false
    ∧ specPackage.ignoreCaseEq " YES" "YES" = false := by
  refine ⟨?_, ignoreCaseEq_yes_iff col.NullAble, by decide, by decide, by decide, by decide⟩
  rw [generateMysqlTypes_snoc, columnLine_eq]

/-! ## The persistence fragment -/

/-- C7: with `gormAnnotation` on, the line of a column carries the persistence
fragment built in this order: the opener `gorm:"column:` and the column name,
`;primary_key` exactly when `ignoreCaseEq(ColumnKey, "PRI")`, `;AUTO_INCREMENT`
exactly when `ignoreCaseEq(Extra, "auto_increment")`, then always `;default:'`,
the literal default text and `'`, then the closing quote; the serialization
fragment, when on, follows it after one space. A null-sentinel default prints
as `default:'null'` and an empty one as `default:''`. -/
theorem gorm_fragment_order (P : Package) (xs : List ColumnsInfo) (col : ColumnsInfo)
    (depth : Int) (gu : Bool) :
    generateMysqlTypes P (xs ++ [col]) depth false true gu
        = generateMysqlTypes P xs depth false true gu
          ++ ("\n" ++ P.fmtFieldName (P.stringifyFirstChar col.ColumnName) ++ " "
            ++ mysqlTypeToGoType P col.DataType (P.ignoreCaseEq col.NullAble "YES") gu
            ++ " \x60"
            ++ ("gorm:\"column:" ++ col.ColumnName
              ++ (if P.ignoreCaseEq col.ColumnKey "PRI" then ";primary_key" else "")
              ++ (if P.ignoreCaseEq col.Extra "auto_increment" then ";AUTO_INCREMENT" else "")
              ++ ";default:'" ++ col.Default ++ "'" ++ "\"")
            ++ "\x60 // " ++ col.Comment)
    ∧ generateMysqlTypes P (xs ++ [col]) depth true true gu
        = generateMysqlTypes P xs depth true true gu
          ++ ("\n" ++ P.fmtFieldName (P.stringifyFirstChar col.ColumnName) ++ " "
            ++ mysqlTypeToGoType P col.DataType (P.ignoreCaseEq col.NullAble "YES") gu
            ++ " \x60"
            ++ ("gorm:\"column:" ++ col.ColumnName
              ++ (if P.ignoreCaseEq col.ColumnKey "PRI" then ";primary_key" else "")
              ++ (if P.ignoreCaseEq col.Extra "auto_increment" then ";AUTO_INCREMENT" else "")
              ++ ";default:'" ++ col.Default ++ "'" ++ "\"")
            ++ " " ++ ("json:\"" ++ col.ColumnName ++ "\"")
            ++ "\x60 // " ++ col.Comment)
    ∧ gormAnnotationText specPackage sampleEmail = "gorm:\"column:email;default:'null'\""
    ∧ gormAnnotationText specPackage sampleId
        = "gorm:\"column:id;primary_key;AUTO_INCREMENT;default:''\"" := by
  refine ⟨?_, ?_, by decide, by decide⟩
  · rw [generateMysqlTypes_snoc, columnLine_eq, lineTail_gorm, gormAnnotationText_eq]
    simp only [String.append_assoc]
  · rw [generateMysqlTypes_snoc, columnLine_eq, lineTail_gorm_json, gormAnnotationText_eq]
    simp only [String.append_assoc]

/-! ## Scenarios -/

set_option maxRecDepth 20000 in
/-- C8, as the claim states it, fails: for the column `id` with persistence
annotations on and serialization off the tag is `gorm` and the auto-increment
marker is `AUTO_INCREMENT`; the text `autoincrement` occurs nowhere in the
output. -/
theorem scenarioA_marker_is_AUTO_INCREMENT :
    generateMysqlTypes specPackage [sampleId] 0 false true false
        = "struct \x7b\nId int32 \x60gorm:\"column:id;primary_key;AUTO_INCREMENT;default:''\"\x60 // "
    ∧ ¬ ("autoincrement".data
          <:+: (generateMysqlTypes specPackage [sampleId] 0 false true false).data) := by
  refine ⟨by decide, ?_⟩
  decide

/-- C8, amended: for a column named `id` of base type `int` with key `PRI`,
extra `auto_increment`, not nullable, empty default and empty comment, with
persistence annotations on and serialization off, the emitted line is a
newline, the field identifier of `id`, a space, `golangInt`, and the block
`gorm:"column:id;primary_key;AUTO_INCREMENT;default:''"` in backticks, followed
by the empty comment after ` // `. -/
theorem scenarioA_line (P : Package) (col : ColumnsInfo) (depth : Int) (gu : Bool)
    (hname : col.ColumnName = "id") (htype : col.DataType = "int")
    (hkey : col.ColumnKey = "PRI") (hextra : col.Extra = "auto_increment")
    (hdefault : col.Default = "") (hcomment : col.Comment = "")
    (hnull : P.ignoreCaseEq col.NullAble "YES" = false)
    (hpri : P.ignoreCaseEq "PRI" "PRI" = true)
    (hauto : P.ignoreCaseEq "auto_increment" "auto_increment" = true) :
    generateMysqlTypes P [col] depth false true gu
      = "struct \x7b" ++ ("\n" ++ P.fmtFieldName (P.stringifyFirstChar "id") ++ " " ++ P.golangInt
          ++ " \x60gorm:\"column:id;primary_key;AUTO_INCREMENT;default:''\"\x60 // ") := by
  have h := generateMysqlTypes_snoc P [] col depth false true gu
  rw [List.nil_append] at h
  rw [h, columnLine_eq, lineTail_gorm, gormAnnotationText_eq, hname, htype, hkey, hextra,
    hdefault, hcomment, hnull, hpri, hauto]
  have ht : mysqlTypeToGoType P "int" false gu = P.golangInt := rfl
  rw [ht]
  simp only [if_true, String.append_assoc, String.append_empty]
  rfl

/-- C8, amended, on the package of the spec: the line of the column `id` reads
`Id int32` followed by the `gorm` block and the comment marker. -/
theorem scenarioA_line_witness :
    generateMysqlTypes specPackage [sampleId] 0 false true false
      = "struct \x7b\nId int32 \x60gorm:\"column:id;primary_key;AUTO_INCREMENT;default:''\"\x60 // " :=
  scenarioA_line specPackage sampleId 0 false rfl rfl rfl rfl rfl rfl (by decide) (by decide)
    (by decide)

/-- C9: with both annotation flags off the line of a column is exactly a
newline, the field identifier, a space, the type, ` // ` and the comment; a
nullable `varchar` column named `email` has the type `sqlNullString` when
`gureguTypes` is off, and on the package of the spec its line reads
`Email sql.NullString // `. -/
theorem plain_line (P : Package) (xs : List ColumnsInfo) (col : ColumnsInfo) (depth : Int)
    (gu : Bool) :
    generateMysqlTypes P (xs ++ [col]) depth false false gu
        = generateMysqlTypes P xs depth false false gu
          ++ ("\n" ++ P.fmtFieldName (P.stringifyFirstChar col.ColumnName) ++ " "
            ++ mysqlTypeToGoType P col.DataType (P.ignoreCaseEq col.NullAble "YES") gu
            ++ " // " ++ col.Comment)
    ∧ mysqlTypeToGoType P "varchar" true false = P.sqlNullString
    ∧ generateMysqlTypes specPackage [sampleEmail] 0 false false false
        = "struct \x7b\nEmail sql.NullString // " := by
  refine ⟨?_, rfl, by decide⟩
  rw [generateMysqlTypes_snoc, columnLine_eq, lineTail_plain]
  simp only [String.append_assoc]

/-! ## The schema reader on zero rows -/

/-- C10 at the failing input: when the catalog query succeeds with a cursor
over zero rows, `GetColumnsFromMysqlTable` returns the empty, non-nil
descriptor sequence with a nil error; the error `No results returned for table`
is returned only when the cursor itself is nil. -/
theorem GetColumnsFromMysqlTable_zero_rows :
    GetColumnsFromMysqlTable emptyCatalog "root" "" "localhost" 3306 "shop" "missing"
        = .returned (some []) none
    ∧ GetColumnsFromMysqlTable nilCursor "root" "" "localhost" 3306 "shop" "missing"
        = .returned none (some "No results returned for table") := by
  decide

/-! ## The schema reader: defaults, rows and errors -/

/-- C11, as the claim states it, fails: a default that arrives as SQL `NULL`
becomes `null` and one that arrives as the byte sequence `0` becomes `0`, but
the same default arriving as a value of another dynamic type, whose string
form is `0`, leaves `Default` empty. -/
theorem GetColumnsFromMysqlTable_default_not_bytes :
    GetColumnsFromMysqlTable
        (catalogOf { rows := [rowEmail, rowVisitsBytes, rowVisitsInt], iterErr := none })
        "root" "" "localhost" 3306 "shop" "users"
      = .returned (some
          [{ ColumnName := "email", ColumnType := "varchar(255)", ColumnKey := "", Extra := "",
             DataType := "varchar", NullAble := "YES", Default := "null", Comment := "" },
           { ColumnName := "visits", ColumnType := "int(11)", ColumnKey := "", Extra := "",
             DataType := "int", NullAble := "NO", Default := "0", Comment := "" },
           { ColumnName := "visits", ColumnType := "int(11)", ColumnKey := "", Extra := "",
             DataType := "int", NullAble := "NO", Default := "", Comment := "" }]) none
    ∧ rowVisitsInt.i = .other "0" := by
  decide

/-- C11, amended: in every descriptor returned, a default that arrived as SQL
`NULL` is the sentinel text `null`, and a default that arrived as a byte
sequence is that text; so a non-empty default that arrived as bytes is never
the empty string. -/
theorem GetColumnsFromMysqlTable_default_null_or_bytes (sql : Sql)
    (user password host : String) (port : Int) (database table : String) (db : DB)
    (rows : Rows)
    (hopen : sql.Open "mysql" (dataSourceName user password host port database)
      = (some db, none))
    (hquery : db.Query columnDataTypeQuery [database, table] = (some rows, none)) :
    ∃ cols : List ColumnsInfo,
      GetColumnsFromMysqlTable sql user password host port database table
        = .returned (some cols) none
      ∧ ∀ (i : Nat) (r : ScannedRow), rows.rows[i]? = some r →
          ∃ c : ColumnsInfo, cols[i]? = some c
            ∧ (r.i = .null → c.Default = "null")
            ∧ (∀ d : String, r.i = .bytes d → c.Default = d)
            ∧ (∀ d : String, r.i = .bytes d → d ≠ "" → c.Default ≠ "") := by
  refine ⟨rows.rows.map scanColumn,
    GetColumnsFromMysqlTable_of_rows sql user password host port database table db rows
      hopen hquery, ?_⟩
  intro i r hr
  refine ⟨scanColumn r, by simp [hr], ?_, ?_, ?_⟩
  · intro h
    simp [scanColumn, h]
  · intro d h
    simp [scanColumn, h]
  · intro d h hd
    simpa [scanColumn, h] using hd

/-- C11, amended, on a catalog of two rows: `email`, whose default is SQL
`NULL`, and `visits`, whose default arrives as the byte sequence `0`. -/
theorem GetColumnsFromMysqlTable_default_null_or_bytes_witness :
    ∃ cols : List ColumnsInfo,
      GetColumnsFromMysqlTable
          (catalogOf { rows := [rowEmail, rowVisitsBytes], iterErr := none })
          "root" "" "localhost" 3306 "shop" "users"
        = .returned (some cols) none
      ∧ ∀ (i : Nat) (r : ScannedRow), [rowEmail, rowVisitsBytes][i]? = some r →
          ∃ c : ColumnsInfo, cols[i]? = some c
            ∧ (r.i = .null → c.Default = "null")
            ∧ (∀ d : String, r.i = .bytes d → c.Default = d)
            ∧ (∀ d : String, r.i = .bytes d → d ≠ "" → c.Default ≠ "") :=
  GetColumnsFromMysqlTable_default_null_or_bytes
    (catalogOf { rows := [rowEmail, rowVisitsBytes], iterErr := none })
    "root" "" "localhost" 3306 "shop" "users"
    { Query := fun _ _ => (some { rows := [rowEmail, rowVisitsBytes], iterErr := none }, none) }
    { rows := [rowEmail, rowVisitsBytes], iterErr := none } rfl rfl

/-- C12: when the connection opens and the query succeeds, the function returns
a nil error and exactly one descriptor per round of the cursor, in cursor
order; descriptor `i` carries the name, declared type, key, extra, base type,
nullability text and comment that the scan of row `i` delivered. -/
theorem GetColumnsFromMysqlTable_one_descriptor_per_row (sql : Sql)
    (user password host : String) (port : Int) (database table : String) (db : DB)
    (rows : Rows)
    (hopen : sql.Open "mysql" (dataSourceName user password host port database)
      = (some db, none))
    (hquery : db.Query columnDataTypeQuery [database, table] = (some rows, none)) :
    ∃ cols : List ColumnsInfo,
      GetColumnsFromMysqlTable sql user password host port database table
        = .returned (some cols) none
      ∧ cols.length = rows.rows.length
      ∧ ∀ (i : Nat) (r : ScannedRow), rows.rows[i]? = some r →
          ∃ c : ColumnsInfo, cols[i]? = some c
            ∧ c.ColumnName = r.ColumnName ∧ c.ColumnType = r.ColumnType
            ∧ c.ColumnKey = r.ColumnKey ∧ c.Extra = r.Extra ∧ c.DataType = r.DataType
            ∧ c.NullAble = r.NullAble ∧ c.Comment = r.Comment := by
  refine ⟨rows.rows.map scanColumn,
    GetColumnsFromMysqlTable_of_rows sql user password host port database table db rows
      hopen hquery, by simp, ?_⟩
  intro i r hr
  refine ⟨scanColumn r, by simp [hr], ?_⟩
  unfold scanColumn
  cases r.i <;> simp

/-- C12 on a catalog of two rows, `id` and `email`: the two descriptors come
back in that order. -/
theorem GetColumnsFromMysqlTable_one_descriptor_per_row_witness :
    ∃ cols : List ColumnsInfo,
      GetColumnsFromMysqlTable (catalogOf { rows := [rowId, rowEmail], iterErr := none })
          "root" "" "localhost" 3306 "shop" "users"
        = .returned (some cols) none
      ∧ cols.length = 2
      ∧ ∀ (i : Nat) (r : ScannedRow), [rowId, rowEmail][i]? = some r →
          ∃ c : ColumnsInfo, cols[i]? = some c
            ∧ c.ColumnName = r.ColumnName ∧ c.ColumnType = r.ColumnType
            ∧ c.ColumnKey = r.ColumnKey ∧ c.Extra = r.Extra ∧ c.DataType = r.DataType
            ∧ c.NullAble = r.NullAble ∧ c.Comment = r.Comment :=
  GetColumnsFromMysqlTable_one_descriptor_per_row
    (catalogOf { rows := [rowId, rowEmail], iterErr := none })
    "root" "" "localhost" 3306 "shop" "users"
    { Query := fun _ _ => (some { rows := [rowId, rowEmail], iterErr := none }, none) }
    { rows := [rowId, rowEmail], iterErr := none } rfl rfl

/-- C13 at the failing inputs: a round whose `Scan` failed still yields a
descriptor and a nil error, and a cursor that stops with an iteration error
after its first row yields that one descriptor and a nil error. -/
theorem GetColumnsFromMysqlTable_ignores_scan_errors :
    GetColumnsFromMysqlTable
        (catalogOf { rows := [rowId, rowScanFailed], iterErr := none })
        "root" "" "localhost" 3306 "shop" "users"
      = .returned (some
          [{ ColumnName := "id", ColumnType := "int(11)", ColumnKey := "PRI",
             Extra := "auto_increment", DataType := "int", NullAble := "NO", Default := "",
             Comment := "" },
           { ColumnName := "email", ColumnType := "varchar(255)", ColumnKey := "", Extra := "",
             DataType := "", NullAble := "", Default := "null", Comment := "" }]) none
    ∧ rowScanFailed.scanErr = some "sql: Scan error on column index 2"
    ∧ GetColumnsFromMysqlTable
        (catalogOf { rows := [rowId], iterErr := some "invalid connection" })
        "root" "" "localhost" 3306 "shop" "users"
      = .returned (some
          [{ ColumnName := "id", ColumnType := "int(11)", ColumnKey := "PRI",
             Extra := "auto_increment", DataType := "int", NullAble := "NO", Default := "",
             Comment := "" }]) none := by
  decide

/-! ## Unused inputs -/

/-- C18: the output does not depend on `depth` nor on the declared type
`ColumnType` of any column: replacing every declared type by an arbitrary text
and the depth by another one leaves the output unchanged. -/
theorem generateMysqlTypes_ignores_depth_and_ColumnType (P : Package)
    (objs : List ColumnsInfo) (depth depth' : Int) (j g gu : Bool)
    (declared : ColumnsInfo → String) :
    generateMysqlTypes P (objs.map fun col => { col with ColumnType := declared col }) depth'
        j g gu
      = generateMysqlTypes P objs depth j g gu := by
  have h : (columnLine P j g gu ∘ fun col => { col with ColumnType := declared col })
      = columnLine P j g gu :=
    funext fun col => columnLine_ColumnType P j g gu col (declared col)
  rw [generateMysqlTypes_eq, generateMysqlTypes_eq, List.map_map, h]

/-! ## Lines with annotations -/

/-- C15: when at least one annotation flag is on, the line of a column is a
newline, the field identifier, a space, the type, a space and a backtick, the
fragments joined by one space, a backtick, ` // ` and the comment; the
fragments are the persistence fragment (if `gormAnnotation`) followed by the
serialization fragment `json:"<ColumnName>"` (if `jsonAnnotation`), so with
both on the persistence fragment comes first and one space separates the
two. -/
theorem annotated_line (P : Package) (xs : List ColumnsInfo) (col : ColumnsInfo)
    (depth : Int) (j g gu : Bool) (h : j = true ∨ g = true) :
    generateMysqlTypes P (xs ++ [col]) depth j g gu
        = generateMysqlTypes P xs depth j g gu
          ++ ("\n" ++ P.fmtFieldName (P.stringifyFirstChar col.ColumnName) ++ " "
            ++ mysqlTypeToGoType P col.DataType (P.ignoreCaseEq col.NullAble "YES") gu
            ++ " \x60"
            ++ " ".intercalate
                ((if g = true then [gormAnnotationText P col] else [])
                  ++ (if j = true then ["json:\"" ++ col.ColumnName ++ "\""] else []))
            ++ "\x60 // " ++ col.Comment)
    ∧ " ".intercalate [gormAnnotationText P col] = gormAnnotationText P col
    ∧ " ".intercalate ["json:\"" ++ col.ColumnName ++ "\""] = "json:\"" ++ col.ColumnName ++ "\""
    ∧ " ".intercalate [gormAnnotationText P col, "json:\"" ++ col.ColumnName ++ "\""]
        = gormAnnotationText P col ++ " " ++ ("json:\"" ++ col.ColumnName ++ "\"") := by
  refine ⟨?_, rfl, rfl, rfl⟩
  have ht : lineTail P col j g
      = " \x60" ++ " ".intercalate
          ((if g = true then [gormAnnotationText P col] else [])
            ++ (if j = true then ["json:\"" ++ col.ColumnName ++ "\""] else []))
        ++ "\x60 // " ++ col.Comment := by
    cases j <;> cases g
    · exact absurd h (by simp)
    · rfl
    · rfl
    · rfl
  rw [generateMysqlTypes_snoc, columnLine_eq, ht]
  simp only [String.append_assoc]

/-- C15 on the package of the spec, for the column `email` after the column
`id` with both annotations on. -/
theorem annotated_line_witness :
    (true = true ∨ true = true)
    ∧ generateMysqlTypes specPackage [sampleId, sampleEmail] 0 true true false
        = generateMysqlTypes specPackage [sampleId] 0 true true false
          ++ "\nEmail sql.NullString \x60gorm:\"column:email;default:'null'\" json:\"email\"\x60 // " :=
  ⟨Or.inl rfl,
   (annotated_line specPackage [sampleId] sampleEmail 0 true true false (Or.inl rfl)).1⟩

/-! ## The catalog query and the connection -/

set_option maxRecDepth 100000 in
/-- C16: whatever the inputs, the one query sent has the fixed text
`columnDataTypeQuery` and exactly two bound parameters, the schema name first
and the table name second (read off a handle that echoes the call); the text
selects the eight catalog fields in order and holds two placeholders; and the
result depends on the handle only through its answer to that call. -/
theorem query_is_fixed_and_bound (sql₁ sql₂ : Sql) (user password host : String) (port : Int)
    (database table : String) (db₁ db₂ : DB) (err : Option GoError)
    (hopen₁ : sql₁.Open "mysql" (dataSourceName user password host port database)
      = (some db₁, err))
    (hopen₂ : sql₂.Open "mysql" (dataSourceName user password host port database)
      = (some db₂, err))
    (hquery : db₁.Query columnDataTypeQuery [database, table]
      = db₂.Query columnDataTypeQuery [database, table]) :
    GetColumnsFromMysqlTable sql₁ user password host port database table
        = GetColumnsFromMysqlTable sql₂ user password host port database table
    ∧ GetColumnsFromMysqlTable echoCatalog user password host port database table
        = .returned (some
            [{ ColumnName := columnDataTypeQuery, ColumnType := "??", ColumnKey := database,
               Extra := table, DataType := "", NullAble := "", Default := "null",
               Comment := "" }]) none
    ∧ columnDataTypeQuery
        = "SELECT " ++ "COLUMN_NAME" ++ ", " ++ "COLUMN_TYPE" ++ ", " ++ "COLUMN_KEY" ++ ", "
          ++ "EXTRA" ++ ", " ++ "DATA_TYPE" ++ ", " ++ "IS_NULLABLE" ++ " , "
          ++ "COLUMN_DEFAULT" ++ ", " ++ "COLUMN_COMMENT"
          ++ " FROM INFORMATION_SCHEMA.COLUMNS WHERE TABLE_SCHEMA = ? AND table_name = ?"
    ∧ columnDataTypeQuery.data.count '?' = 2 := by
  refine ⟨?_, ?_, rfl, rfl⟩
  · obtain ⟨Q₁⟩ := db₁
    obtain ⟨Q₂⟩ := db₂
    have hq : Q₁ columnDataTypeQuery [database, table]
        = Q₂ columnDataTypeQuery [database, table] := hquery
    unfold GetColumnsFromMysqlTable
    rw [hopen₁, hopen₂]
    simp only [hq]
  · rw [GetColumnsFromMysqlTable_of_rows echoCatalog user password host port database table
      echoDB _ rfl rfl]
    rfl

set_option maxRecDepth 100000 in
/-- C16 on two databases that differ on every query text but the catalog
query: both give the same result for the schema `shop` and the table
`users`. -/
theorem query_is_fixed_and_bound_witness :
    GetColumnsFromMysqlTable emptyCatalog "root" "" "localhost" 3306 "shop" "users"
      = GetColumnsFromMysqlTable strictCatalog "root" "" "localhost" 3306 "shop" "users" :=
  (query_is_fixed_and_bound emptyCatalog strictCatalog "root" "" "localhost" 3306 "shop" "users"
    { Query := fun _ _ => (some { rows := [], iterErr := none }, none) } strictDB none
    rfl rfl (by simp [strictDB])).1

/-- C17 at the failing input: when `sql.Open` returns no handle and an error,
the call does not return that error: the deferred `db.Close()` dereferences
the nil handle. With a handle and an error the error is returned with no
descriptors. -/
theorem GetColumnsFromMysqlTable_open_failure :
    GetColumnsFromMysqlTable failedOpen "root" "" "localhost" 3306 "a/b" "users" = .panicked
    ∧ GetColumnsFromMysqlTable
        { Open := fun _ _ => (some echoDB, some "invalid DSN") }
        "root" "" "localhost" 3306 "a/b" "users"
      = .returned none (some "invalid DSN") := by
  decide

/-! ## Line structure -/

/-- C19: if the type tokens and, for every column, the field identifier, the
column name, the default and the comment hold no newline, the output holds
exactly as many newlines as there are descriptors; and whenever the comment of
a column holds a newline, the output holds more newlines than there are
descriptors. -/
theorem newline_count (P : Package) (objs : List ColumnsInfo) (depth : Int) (j g gu : Bool)
    (htype : ∀ (t : String) (nullable gureguTypes : Bool),
      countNewlines (mysqlTypeToGoType P t nullable gureguTypes) = 0)
    (hcols : ∀ col ∈ objs,
      countNewlines (P.fmtFieldName (P.stringifyFirstChar col.ColumnName)) = 0
      ∧ countNewlines col.ColumnName = 0 ∧ countNewlines col.Default = 0
      ∧ countNewlines col.Comment = 0) :
    countNewlines (generateMysqlTypes P objs depth j g gu) = objs.length
    ∧ ∀ (xs ys : List ColumnsInfo) (col : ColumnsInfo), 0 < countNewlines col.Comment →
        (xs ++ col :: ys).length
          < countNewlines (generateMysqlTypes P (xs ++ col :: ys) depth j g gu) := by
  have h0 : countNewlines "struct \x7b" = 0 := by decide
  constructor
  · rw [generateMysqlTypes_eq, countNewlines_append, countNewlines_concatLines, h0, Nat.zero_add]
    clear h0
    induction objs with
    | nil => rfl
    | cons x xs ih =>
      obtain ⟨h1, h2, h3, h4⟩ := hcols x (List.mem_cons_self x xs)
      have ih' := ih fun col hcol => hcols col (List.mem_cons_of_mem x hcol)
      simp only [List.map_cons, List.sum_cons, List.length_cons, ih', countNewlines_columnLine,
        countNewlines_lineTail, htype, h1, h2, h3, h4]
      split <;> split <;> omega
  · intro xs ys col hcol
    rw [generateMysqlTypes_eq, countNewlines_append, countNewlines_concatLines, h0, Nat.zero_add]
    have hxs := length_le_sum_countNewlines P j g gu xs
    have hys := length_le_sum_countNewlines P j g gu ys
    have hc := countNewlines_columnLine_ge P j g gu col
    simp only [List.map_append, List.map_cons, List.sum_append, List.sum_cons,
      List.length_append, List.length_cons]
    omega

/-- C19 on the package of the spec: the columns `id` and `email` with both
annotations on give two newlines, and the column `note`, whose comment runs
over two lines, gives more newlines than columns. -/
theorem newline_count_witness :
    countNewlines (generateMysqlTypes specPackage [sampleId, sampleEmail] 0 true true false) = 2
    ∧ 0 < countNewlines sampleNote.Comment
    ∧ [sampleNote].length
        < countNewlines (generateMysqlTypes specPackage [sampleNote] 0 true true false) :=
  ⟨(newline_count specPackage [sampleId, sampleEmail] 0 true true false
      countNewlines_specPackage (by decide)).1,
   by decide,
   (newline_count specPackage [sampleId, sampleEmail] 0 true true false
      countNewlines_specPackage (by decide)).2 [] [] sampleNote (by decide)⟩

end Db2Struct
